import Mathlib

/-!
Verification of the video-download orchestration workflow of yt-dlp-mcp.

The definitions below are a shallow embedding of `downloadVideo`
(src/modules/video.ts) and the helpers it uses from lib/modules/utils.js.
External collaborators (the URL library, the filesystem, the spawned
child processes, JSON parsing) are modelled by an `Env` record that fixes
the answer the outside world gives to each call the code makes; the
embedding then computes, as pure data, which side effects the code
performs and which result it returns.
-/

namespace YtDlpMcp

/-- Model of the JavaScript `String.prototype.includes` test. -/
def jsIncludes (s sub : String) : Bool :=
  decide (sub.toList <:+: s.toList)

/-- Model of the JavaScript `String.prototype.endsWith` test. -/
def jsEndsWith (s suffix : String) : Bool :=
  suffix.toList.isSuffixOf s.toList

/-- Node `path.join` for the two-argument calls the code makes: joining a
directory with a file name inserts a separator, and joining with the empty
string returns the directory unchanged (empty segments are dropped). -/
def pathJoin (a b : String) : String :=
  if b = "" then a else a ++ "/" ++ b

/-- JavaScript truthiness of an optional string argument: `undefined` and
the empty string are falsy, every other string is truthy. -/
def truthy : Option String → Bool
  | none => false
  | some s => s != ""

/-- `validateUrl` from utils.js: `new URL(url)` succeeds or throws; the
function returns the corresponding boolean. `urlHost` is the URL library:
it yields the parsed hostname when the string is a well-formed absolute
URL and `none` otherwise. -/
def validateUrl (urlHost : String → Option String) (url : String) : Bool :=
  (urlHost url).isSome

/-- `isYouTubeUrl` from utils.js: parse the URL and test whether the
hostname contains `youtube.com` or `youtu.be`; a parse failure gives
`false`. -/
def isYouTubeUrl (urlHost : String → Option String) (url : String) : Bool :=
  match urlHost url with
  | none => false
  | some h => jsIncludes h "youtube.com" || jsIncludes h "youtu.be"

/-- The format-selection switch of `downloadVideo` (video.ts lines 54-86),
branching on the platform class and the resolution string. -/
def selectFormat (isYT : Bool) (resolution : String) : String :=
  if isYT then
    if resolution = "480p" then "bestvideo[height<=480]+bestaudio/best[height<=480]/best"
    else if resolution = "720p" then "bestvideo[height<=720]+bestaudio/best[height<=720]/best"
    else if resolution = "1080p" then "bestvideo[height<=1080]+bestaudio/best[height<=1080]/best"
    else if resolution = "best" then "bestvideo+bestaudio/best"
    else "bestvideo[height<=720]+bestaudio/best[height<=720]/best"
  else
    if resolution = "480p" then "worst[height>=480]/best[height<=480]/worst"
    else if resolution = "best" then "bestvideo+bestaudio/best"
    else "bestvideo[height>=720]+bestaudio/best[height>=720]/best"

/-- JavaScript `Array.prototype.splice(i, 0, a, b)`: insert two elements
at index `i`. -/
def splice2 (l : List String) (i : Nat) (a b : String) : List String :=
  l.take i ++ [a, b] ++ l.drop i

/-- The `sectionArgs` accumulation of video.ts lines 102-104. -/
def sectionArgs (startTime endTime : Option String) : List String :=
  (if truthy startTime then ["-ss", startTime.getD ""] else []) ++
  (if truthy endTime then ["-to", endTime.getD ""] else [])

/-- The `--postprocessor-args` block pushed at video.ts line 105, present
exactly when a start or end time is given. -/
def postprocessorBlock (startTime endTime : Option String) : List String :=
  if truthy startTime || truthy endTime then
    ["--postprocessor-args", "ffmpeg_downloader: " ++ String.intercalate " " (sectionArgs startTime endTime)]
  else []

/-- The argument list handed to the downloader (video.ts lines 88-106):
the base list, a `splice(4, 0, "-f", format)` when no section or chapter
option is truthy, then the optional post-processor block. -/
def downloadArgs (url fmt : String) (startTime endTime chapter : Option String) : List String :=
  (if truthy startTime || truthy endTime || truthy chapter then
      ["--progress", "--newline", "--no-mtime", url]
    else
      splice2 ["--progress", "--newline", "--no-mtime", url] 4 "-f" fmt)
  ++ postprocessorBlock startTime endTime

/-- Outcome of one spawned child process, as the outside world reports it:
exit code (`none` models a null code), captured stdout and stderr. -/
structure SpawnResult where
  code : Option Int
  stdout : String
  stderr : String
deriving DecidableEq

/-- JavaScript template interpolation of the exit code. -/
def jsCodeString : Option Int → String
  | none => "null"
  | some n => toString n

/-- The rejection message built by `_spawnPromise` (utils.js line 106). -/
def spawnErrMsg (r : SpawnResult) : String :=
  "Failed with exit code: " ++ jsCodeString r.code ++ "\nStdout: " ++ r.stdout ++ "\nStderr: " ++ r.stderr

/-- `_spawnPromise` from utils.js: resolves with the output streams when
the process closes with exit code zero, rejects with the message carrying
the captured stderr otherwise. -/
def spawnPromise (r : SpawnResult) : Except String (String × String) :=
  if r.code = some 0 then .ok (r.stdout, r.stderr) else .error (spawnErrMsg r)

/-- A chapter descriptor as read from the video metadata. -/
structure Chapter where
  title : String
  start_time : Int
  end_time : Int
deriving DecidableEq

/-- The video metadata JSON.parse produces: a title and a chapter list
(an absent `chapters` field is modelled by the empty list, which the code
treats identically). -/
structure VideoInfo where
  title : String
  chapters : List Chapter
deriving DecidableEq

/-- One child-process invocation: command, arguments, optional working
directory. -/
structure SpawnCall where
  cmd : String
  args : List String
  cwd : Option String
deriving DecidableEq

/-- The behaviour of the external world during one invocation: the URL
library, whether the staging directory pre-exists, the outcome of the
download spawn, of the metadata spawn, of parsing its JSON, the staging
directory listing seen at the k-th matched-chapter iteration, and the
listing seen by the finalizer. -/
structure Env where
  urlHost : String → Option String
  stagingExists0 : Bool
  download : SpawnResult
  meta : SpawnResult
  parsed : Except String VideoInfo
  stagingAt : Nat → List String
  finalFiles : List String

/-- The fixed staging subdirectory name (video.ts line 44). -/
def stagingDirName : String := "temp_yt_dlp_downloads"

/-- The find-predicate of video.ts line 129: a file with a known video
container extension. -/
def isVideoFile (f : String) : Bool :=
  jsEndsWith f ".mp4" || jsEndsWith f ".webm"

/-- The chapter-match test of video.ts line 126. -/
def chapterMatches (filter chapTitle : String) : Bool :=
  filter = "all" || chapTitle = filter

/-- The body of one matched-chapter iteration (video.ts lines 127-141):
build the output name with a hardcoded `.mp4` extension, locate the first
staged container file (defaulting to the empty string), guard on the
joined path being falsy, and otherwise produce the ffmpeg invocation. -/
def chapterStep (tempDir videoTitle : String) (files : List String) (chap : Chapter) : Except String SpawnCall :=
  if pathJoin tempDir ((files.find? isVideoFile).getD "") = "" then
    .error "Full video not found in temporary directory for chapter splitting."
  else
    .ok ⟨"ffmpeg",
      ["-i", pathJoin tempDir ((files.find? isVideoFile).getD ""),
       "-ss", toString chap.start_time, "-to", toString chap.end_time,
       "-c", "copy", pathJoin tempDir (videoTitle ++ " - " ++ chap.title ++ ".mp4")], none⟩

/-- The loop over the metadata chapters (video.ts lines 125-152). The
counter indexes the staging-directory listings the matched iterations
read. A throw from the guard aborts the loop; a per-chapter ffmpeg
failure is caught and only logged, so the spawn is recorded and the loop
continues regardless of that outcome. -/
def chapterLoop (stagingAt : Nat → List String) (tempDir filter videoTitle : String) :
    List Chapter → Nat → List SpawnCall × Option String
  | [], _ => ([], none)
  | chap :: rest, k =>
    if chapterMatches filter chap.title then
      match chapterStep tempDir videoTitle (stagingAt k) chap with
      | .error e => ([], some e)
      | .ok call =>
        let r := chapterLoop stagingAt tempDir filter videoTitle rest (k + 1)
        (call :: r.1, r.2)
    else
      chapterLoop stagingAt tempDir filter videoTitle rest k

/-- The metadata spawn of video.ts line 121. -/
def metaCall (url : String) : SpawnCall :=
  ⟨"yt-dlp", ["--print-json", url], none⟩

/-- The conditional chapter stage (video.ts lines 120-156): when the
chapter argument is truthy, spawn the metadata fetch, parse its JSON, and
run the chapter loop when chapters are present; a metadata or parse
failure propagates. Returns the spawns performed and the propagated error,
if any. -/
def chapterStage (meta : SpawnResult) (parsed : Except String VideoInfo)
    (stagingAt : Nat → List String) (tempDir url : String) (chapter : Option String) :
    List SpawnCall × Option String :=
  if truthy chapter then
    match spawnPromise meta with
    | .error e => ([metaCall url], some e)
    | .ok _ =>
      match parsed with
      | .error e => ([metaCall url], some e)
      | .ok info =>
        if info.chapters.isEmpty then ([metaCall url], none)
        else
          (metaCall url :: (chapterLoop stagingAt tempDir (chapter.getD "") info.title info.chapters 0).1,
           (chapterLoop stagingAt tempDir (chapter.getD "") info.title info.chapters 0).2)
  else ([], none)

/-- Everything observable about one run of the try-block of
`downloadVideo`: the discarded result of `validateUrl`, whether
`mkdirSync` ran, the spawns performed in order, the renames performed by
the finalizer, and the returned or thrown result. -/
structure BodyResult where
  validateResult : Bool
  mkdirCalled : Bool
  spawns : List SpawnCall
  moves : List (String × String)
  result : Except String String

/-- A run result together with whether the staging directory still exists
once the finally-block has run. -/
structure RunResult extends BodyResult where
  stagingExistsAtReturn : Bool

/-- The downloader spawn (video.ts line 111): yt-dlp, the constructed
argument list, with the staging directory as working directory. -/
def downloadCall (env : Env) (downloadsDir url resolution : String)
    (startTime endTime chapter : Option String) : SpawnCall :=
  ⟨"yt-dlp",
   downloadArgs url (selectFormat (isYouTubeUrl env.urlHost url) resolution) startTime endTime chapter,
   some (pathJoin downloadsDir stagingDirName)⟩

/-- The try-block of `downloadVideo` (video.ts lines 46-170): validation
result discarded, staging directory ensured, download spawned and wrapped
on failure, conditional chapter stage, then the finalizer that throws on
an empty listing and otherwise renames every staged file into the
destination directory. -/
def downloadVideoBody (env : Env) (downloadsDir url resolution : String)
    (startTime endTime chapter : Option String) : BodyResult :=
  match spawnPromise env.download with
  | .error e =>
    ⟨validateUrl env.urlHost url, !env.stagingExists0,
     [downloadCall env downloadsDir url resolution startTime endTime chapter],
     [], .error ("Download failed: " ++ e)⟩
  | .ok _ =>
    match chapterStage env.meta env.parsed env.stagingAt (pathJoin downloadsDir stagingDirName) url chapter with
    | (calls, some e) =>
      ⟨validateUrl env.urlHost url, !env.stagingExists0,
       downloadCall env downloadsDir url resolution startTime endTime chapter :: calls,
       [], .error e⟩
    | (calls, none) =>
      if env.finalFiles.isEmpty then
        ⟨validateUrl env.urlHost url, !env.stagingExists0,
         downloadCall env downloadsDir url resolution startTime endTime chapter :: calls,
         [], .error "No files were downloaded by yt-dlp."⟩
      else
        ⟨validateUrl env.urlHost url, !env.stagingExists0,
         downloadCall env downloadsDir url resolution startTime endTime chapter :: calls,
         env.finalFiles.map (fun f =>
           (pathJoin (pathJoin downloadsDir stagingDirName) f, pathJoin downloadsDir f)),
         .ok ("Video download process initiated to " ++ downloadsDir ++ ". Check the directory for the downloaded file(s).")⟩

/-- The finally-block (video.ts lines 173-178): if the staging directory
exists it is removed recursively with force, so it does not exist
afterwards. Takes existence before the block, returns existence after. -/
def cleanupStaging (existsBefore : Bool) : Bool :=
  if existsBefore then false else existsBefore

/-- `downloadVideo` as a whole: the try-block followed by the guaranteed
finally-block. The staging directory exists when the finally-block starts,
since the body created it when absent and nothing in the body removes it. -/
def downloadVideo (env : Env) (downloadsDir url resolution : String)
    (startTime endTime chapter : Option String) : RunResult :=
  { toBodyResult := downloadVideoBody env downloadsDir url resolution startTime endTime chapter,
    stagingExistsAtReturn := cleanupStaging true }

/-- Modelled from the spec: the downloader argument order claimed in the
specification, §4.3 — progress flag, line-buffered flag, no-mtime flag,
then optionally the format pair, then the URL, then the post-processor
block. Used only to compare the claimed order against `downloadArgs`. -/
def specClaimedDownloadArgs (url fmt : String) (startTime endTime chapter : Option String) : List String :=
  ["--progress", "--newline", "--no-mtime"]
  ++ (if truthy startTime || truthy endTime || truthy chapter then [] else ["-f", fmt])
  ++ [url]
  ++ postprocessorBlock startTime endTime

/-- A world in which the candidate string is not a well-formed URL: the
URL library refuses every string, the staging directory does not
pre-exist, and the downloader, handed garbage, exits nonzero. -/
def envInvalidUrl : Env where
  urlHost := fun _ => none
  stagingExists0 := false
  download := ⟨some 1, "", "yt-dlp error: not a valid URL"⟩
  meta := ⟨some 0, "", ""⟩
  parsed := .error "unused"
  stagingAt := fun _ => []
  finalFiles := []

/-- A world for a recognized-platform URL where every external call
succeeds but the staging directory is empty at the finalizer. -/
def envNoOutput : Env where
  urlHost := fun _ => some "www.youtube.com"
  stagingExists0 := true
  download := ⟨some 0, "", ""⟩
  meta := ⟨some 0, "", ""⟩
  parsed := .ok ⟨"T", []⟩
  stagingAt := fun _ => []
  finalFiles := []

/-- A world where the download stage succeeds and stages a full video,
but the chapter-metadata fetch exits nonzero. -/
def envMetaFail : Env where
  urlHost := fun _ => some "www.youtube.com"
  stagingExists0 := false
  download := ⟨some 0, "", ""⟩
  meta := ⟨some 1, "", "boom"⟩
  parsed := .error "unused"
  stagingAt := fun _ => ["vid.mp4"]
  finalFiles := ["vid.mp4"]

/-- A world where the downloader exits with status 2 after emitting
output on both streams. -/
def envNonzeroExit : Env where
  urlHost := fun _ => some "www.youtube.com"
  stagingExists0 := false
  download := ⟨some 2, "partial output", "network error"⟩
  meta := ⟨some 0, "", ""⟩
  parsed := .error "unused"
  stagingAt := fun _ => []
  finalFiles := []

/-- A world for a recognized-platform URL where everything succeeds. -/
def envYouTube : Env where
  urlHost := fun _ => some "www.youtube.com"
  stagingExists0 := false
  download := ⟨some 0, "", ""⟩
  meta := ⟨some 0, "", ""⟩
  parsed := .ok ⟨"T", [⟨"Intro", 0, 30⟩]⟩
  stagingAt := fun _ => ["vid.webm"]
  finalFiles := ["vid.webm", "T - Intro.mp4"]

lemma string_data_append (a b : String) : (a ++ b).data = a.data ++ b.data := by
  cases a; cases b; rfl

lemma pathJoin_eq_empty (a b : String) (h : pathJoin a b = "") : a = "" ∧ b = "" := by
  unfold pathJoin at h
  by_cases hb : b = ""
  · rw [if_pos hb] at h; exact ⟨h, hb⟩
  · rw [if_neg hb] at h
    exfalso
    have hd := congrArg String.data h
    rw [string_data_append, string_data_append] at hd
    have hslash : ("/" : String).data = ['/'] := rfl
    have hnil : ("" : String).data = ([] : List Char) := rfl
    rw [hslash, hnil] at hd
    rcases List.append_eq_nil.mp hd with ⟨h1, _⟩
    rcases List.append_eq_nil.mp h1 with ⟨_, h3⟩
    exact List.cons_ne_nil _ _ h3

lemma stagingDir_ne_empty (d : String) : pathJoin d stagingDirName ≠ "" := by
  intro h
  exact absurd (pathJoin_eq_empty _ _ h).2 (by decide)

lemma chapterStep_spec (tempDir videoTitle : String) (files : List String) (chap : Chapter)
    (h : tempDir ≠ "") :
    chapterStep tempDir videoTitle files chap =
      .ok ⟨"ffmpeg",
        ["-i", pathJoin tempDir ((files.find? isVideoFile).getD ""),
         "-ss", toString chap.start_time, "-to", toString chap.end_time,
         "-c", "copy", pathJoin tempDir (videoTitle ++ " - " ++ chap.title ++ ".mp4")], none⟩ := by
  unfold chapterStep
  rw [if_neg]
  intro hc
  exact h (pathJoin_eq_empty _ _ hc).1

lemma chapterLoop_snd_none (stagingAt : Nat → List String) (tempDir filter videoTitle : String)
    (h : tempDir ≠ "") :
    ∀ (chs : List Chapter) (k : Nat),
      (chapterLoop stagingAt tempDir filter videoTitle chs k).2 = none := by
  intro chs
  induction chs with
  | nil => intro k; rfl
  | cons chap rest ih =>
    intro k
    simp only [chapterLoop]
    by_cases hm : chapterMatches filter chap.title = true
    · rw [if_pos hm, chapterStep_spec tempDir videoTitle (stagingAt k) chap h]
      exact ih (k + 1)
    · rw [if_neg hm]
      exact ih k

lemma chapterStage_snd_none (meta : SpawnResult) (parsed : Except String VideoInfo)
    (stagingAt : Nat → List String) (tempDir url : String) (chapter : Option String)
    (ht : tempDir ≠ "")
    (h : truthy chapter = true → meta.code = some 0 ∧ ∃ info, parsed = .ok info) :
    (chapterStage meta parsed stagingAt tempDir url chapter).2 = none := by
  by_cases hc : truthy chapter = true
  · obtain ⟨hm, info, hp⟩ := h hc
    by_cases hi : info.chapters.isEmpty = true
    · simp [chapterStage, hc, hp, spawnPromise, hm, hi]
    · simp only [chapterStage, hc, hp, spawnPromise, hm, hi, if_true, if_false,
        Bool.false_eq_true, ite_true, ite_false, reduceIte]
      exact chapterLoop_snd_none stagingAt tempDir (chapter.getD "") info.title ht info.chapters 0
  · simp [chapterStage, hc]

lemma downloadArgs_eq (url fmt : String) (st et c : Option String) :
    downloadArgs url fmt st et c =
      ["--progress", "--newline", "--no-mtime", url]
      ++ (if truthy st || truthy et || truthy c then [] else ["-f", fmt])
      ++ postprocessorBlock st et := by
  unfold downloadArgs splice2
  by_cases h : (truthy st || truthy et || truthy c) = true
  · rw [if_pos h, if_pos h]
    simp
  · rw [if_neg h, if_neg h]
    rfl

/-- C1: the claim fails on the code. For a string the URL library rejects,
`downloadVideo` does not fail with an InvalidInput error before side
effects occur: `validateUrl` returns false but its result is discarded,
the staging directory is created anyway, the downloader is spawned with
the malformed URL, and the eventual failure is the downloader's own
nonzero exit, wrapped as a download failure. -/
theorem claim_C1_invalid_url_not_rejected :
    validateUrl envInvalidUrl.urlHost "invalid-url" = false ∧
    (downloadVideo envInvalidUrl "/downloads" "invalid-url" "720p" none none none).validateResult = false ∧
    (downloadVideo envInvalidUrl "/downloads" "invalid-url" "720p" none none none).mkdirCalled = true ∧
    (downloadVideo envInvalidUrl "/downloads" "invalid-url" "720p" none none none).spawns =
      [downloadCall envInvalidUrl "/downloads" "invalid-url" "720p" none none none] ∧
    (downloadVideo envInvalidUrl "/downloads" "invalid-url" "720p" none none none).result =
      .error ("Download failed: " ++ spawnErrMsg envInvalidUrl.download) :=
  ⟨rfl, rfl, rfl, rfl, rfl⟩

/-- C2: on every exit path the staging directory no longer exists when the
call returns or rethrows, and two sequential invocations against the same
destination directory leave no residual staging directory after either
call. -/
theorem claim_C2_staging_always_removed (env1 env2 : Env) (d url1 url2 res1 res2 : String)
    (st1 et1 ch1 st2 et2 ch2 : Option String) :
    (downloadVideo env1 d url1 res1 st1 et1 ch1).stagingExistsAtReturn = false ∧
    (downloadVideo env2 d url2 res2 st2 et2 ch2).stagingExistsAtReturn = false :=
  ⟨rfl, rfl⟩

/-- C3: for a URL that parses with hostname `host`, the format expression
used by `downloadVideo` follows the recognized-platform table when the
hostname contains a platform marker, and the other-platform table
otherwise, including the default cases. -/
theorem claim_C3_format_selection (env : Env) (url host resolution : String)
    (h : env.urlHost url = some host) :
    ((jsIncludes host "youtube.com" || jsIncludes host "youtu.be") = true →
      selectFormat (isYouTubeUrl env.urlHost url) resolution =
        (if resolution = "480p" then "bestvideo[height<=480]+bestaudio/best[height<=480]/best"
         else if resolution = "720p" then "bestvideo[height<=720]+bestaudio/best[height<=720]/best"
         else if resolution = "1080p" then "bestvideo[height<=1080]+bestaudio/best[height<=1080]/best"
         else if resolution = "best" then "bestvideo+bestaudio/best"
         else "bestvideo[height<=720]+bestaudio/best[height<=720]/best")) ∧
    ((jsIncludes host "youtube.com" || jsIncludes host "youtu.be") = false →
      selectFormat (isYouTubeUrl env.urlHost url) resolution =
        (if resolution = "480p" then "worst[height>=480]/best[height<=480]/worst"
         else if resolution = "best" then "bestvideo+bestaudio/best"
         else "bestvideo[height>=720]+bestaudio/best[height>=720]/best")) := by
  constructor
  · intro hr
    simp [isYouTubeUrl, h, hr, selectFormat]
  · intro hr
    simp [isYouTubeUrl, h, hr, selectFormat]

/-- C3 witness: a recognized-platform hostname at 480p yields the 480p
ceiling expression. -/
theorem claim_C3_witness :
    envYouTube.urlHost "https://www.youtube.com/watch?v=x" = some "www.youtube.com" ∧
    selectFormat (isYouTubeUrl envYouTube.urlHost "https://www.youtube.com/watch?v=x") "480p" =
      "bestvideo[height<=480]+bestaudio/best[height<=480]/best" := by
  refine ⟨rfl, ?_⟩
  have h := (claim_C3_format_selection envYouTube "https://www.youtube.com/watch?v=x"
    "www.youtube.com" "480p" rfl).1 (by decide)
  simpa using h

/-- C4: when any of startTime, endTime, chapter is truthy the argument
list carries neither the format flag nor the format expression, and when
none is truthy the list carries exactly the format pair. -/
theorem claim_C4_format_flag_omission (url fmt : String) (st et ch : Option String) :
    ((truthy st || truthy et || truthy ch) = true →
      downloadArgs url fmt st et ch =
        ["--progress", "--newline", "--no-mtime", url] ++ postprocessorBlock st et) ∧
    ((truthy st || truthy et || truthy ch) = false →
      downloadArgs url fmt st et ch =
        ["--progress", "--newline", "--no-mtime", url, "-f", fmt]) := by
  constructor <;> intro h <;>
    rw [downloadArgs_eq] <;>
    cases h1 : truthy st <;> cases h2 : truthy et <;> cases h3 : truthy ch <;>
      simp_all [postprocessorBlock]

/-- C4 witness: the time-range scenario builds the section block and no
format flag. -/
theorem claim_C4_witness :
    (truthy (some "00:00:05") || truthy (some "00:00:10") || truthy (none : Option String)) = true ∧
    downloadArgs "https://example.com/v" "fmt" (some "00:00:05") (some "00:00:10") none =
      ["--progress", "--newline", "--no-mtime", "https://example.com/v"] ++
        postprocessorBlock (some "00:00:05") (some "00:00:10") :=
  ⟨by decide,
   (claim_C4_format_flag_omission "https://example.com/v" "fmt"
     (some "00:00:05") (some "00:00:10") none).1 (by decide)⟩

/-- C5 counterexample: at a concrete invocation with no section or chapter
options, the argument list the code builds differs from the order the
claim states, because the code splices the format pair after the URL, not
before it. -/
theorem claim_C5_counterexample :
    downloadArgs "https://example.com/v" (selectFormat false "best") none none none ≠
      specClaimedDownloadArgs "https://example.com/v" (selectFormat false "best") none none none := by
  decide

/-- C5 (amended): the argument list is, in order: the progress flag, the
newline flag, the no-mtime flag, the URL itself, then — only when no
section or chapter option is truthy — the format pair, and finally the
post-processor block exactly when a start or end time is given; the first
spawn of every run is that downloader invocation with the staging
directory as working directory. -/
theorem claim_C5_arg_order_amended (env : Env) (d url resolution : String)
    (st et ch : Option String) :
    (downloadVideo env d url resolution st et ch).spawns.head? =
      some (downloadCall env d url resolution st et ch) ∧
    (downloadCall env d url resolution st et ch).args =
      ["--progress", "--newline", "--no-mtime", url]
      ++ (if truthy st || truthy et || truthy ch then []
          else ["-f", selectFormat (isYouTubeUrl env.urlHost url) resolution])
      ++ postprocessorBlock st et := by
  constructor
  · unfold downloadVideo downloadVideoBody
    cases hsp : spawnPromise env.download with
    | error e => rfl
    | ok v =>
      rcases hcs : chapterStage env.meta env.parsed env.stagingAt (pathJoin d stagingDirName) url ch with ⟨calls, err⟩
      cases err with
      | none =>
        by_cases hf : env.finalFiles.isEmpty = true <;> simp [hf]
      | some e => simp
  · exact downloadArgs_eq url _ st et ch

/-- C6: when the downloader exits zero (and, if a chapter was requested,
the metadata stage completed) but the staging directory lists no files at
the finalizer, the run fails with the no-output error and the staging
directory is still removed before the call rethrows. -/
theorem claim_C6_no_output (env : Env) (d url resolution : String) (st et ch : Option String)
    (h0 : env.download.code = some 0)
    (h1 : env.finalFiles = [])
    (h2 : truthy ch = true → env.meta.code = some 0 ∧ ∃ info, env.parsed = .ok info) :
    (downloadVideo env d url resolution st et ch).result =
      .error "No files were downloaded by yt-dlp." ∧
    (downloadVideo env d url resolution st et ch).stagingExistsAtReturn = false := by
  refine ⟨?_, rfl⟩
  unfold downloadVideo downloadVideoBody
  have hsp : spawnPromise env.download = .ok (env.download.stdout, env.download.stderr) := by
    unfold spawnPromise; rw [if_pos h0]
  rw [hsp]
  have hsn := chapterStage_snd_none env.meta env.parsed env.stagingAt
    (pathJoin d stagingDirName) url ch (stagingDir_ne_empty d) h2
  rcases hcs : chapterStage env.meta env.parsed env.stagingAt (pathJoin d stagingDirName) url ch
    with ⟨calls, err⟩
  rw [hcs] at hsn
  simp only at hsn
  subst hsn
  simp [h1]

/-- C6 witness: all stages succeed, the staging listing is empty, and the
run rethrows the no-output error. -/
theorem claim_C6_witness :
    (downloadVideo envNoOutput "/downloads" "https://www.youtube.com/watch?v=x" "720p"
      none none none).result = .error "No files were downloaded by yt-dlp." :=
  (claim_C6_no_output envNoOutput "/downloads" "https://www.youtube.com/watch?v=x" "720p"
    none none none rfl rfl (fun h => nomatch h)).1

/-- C7 counterexample: with a full video staged and the chapter-metadata
fetch exiting nonzero, the error propagates but nothing is moved into the
destination directory — the staged file is not subject to the finalizer's
move, contrary to the claim. -/
theorem claim_C7_counterexample :
    envMetaFail.stagingAt 0 = ["vid.mp4"] ∧
    (downloadVideo envMetaFail "/downloads" "u" "720p" none none (some "Intro")).result =
      .error "Failed with exit code: 1\nStdout: \nStderr: boom" ∧
    (downloadVideo envMetaFail "/downloads" "u" "720p" none none (some "Intro")).moves = [] :=
  ⟨rfl, rfl, rfl⟩

/-- C7 (amended): with a chapter filter requested, a successful download,
and a failing metadata fetch, the metadata error is propagated, no staged
file is moved into the destination directory, and the staging directory
(with the staged files inside it) is removed. -/
theorem claim_C7_amended (env : Env) (d url resolution : String) (st et ch : Option String)
    (ht : truthy ch = true) (h0 : env.download.code = some 0) (hm : env.meta.code ≠ some 0) :
    (downloadVideo env d url resolution st et ch).result = .error (spawnErrMsg env.meta) ∧
    (downloadVideo env d url resolution st et ch).moves = [] ∧
    (downloadVideo env d url resolution st et ch).stagingExistsAtReturn = false := by
  have hsp : spawnPromise env.download = .ok (env.download.stdout, env.download.stderr) := by
    unfold spawnPromise; rw [if_pos h0]
  have hmeta : spawnPromise env.meta = .error (spawnErrMsg env.meta) := by
    unfold spawnPromise; rw [if_neg hm]
  have hcs : chapterStage env.meta env.parsed env.stagingAt (pathJoin d stagingDirName) url ch =
      ([metaCall url], some (spawnErrMsg env.meta)) := by
    unfold chapterStage
    rw [if_pos ht, hmeta]
  refine ⟨?_, ?_, rfl⟩
  · unfold downloadVideo downloadVideoBody
    rw [hsp, hcs]
  · unfold downloadVideo downloadVideoBody
    rw [hsp, hcs]

/-- C7 witness: the amended behaviour at a concrete failing metadata
fetch. -/
theorem claim_C7_witness :
    (downloadVideo envMetaFail "/downloads" "u2" "best" none none (some "all")).moves = [] :=
  (claim_C7_amended envMetaFail "/downloads" "u2" "best" none none (some "all")
    (by decide) rfl (by decide)).2.1

/-- C8: the downloader run is treated as successful exactly when the
child exits with status zero; a nonzero exit surfaces as a download-failed
error whose message carries the captured stderr, while the stderr text of
a zero-exit run does not change the outcome. -/
theorem claim_C8_exit_code (env : Env) (d url resolution : String)
    (st et ch : Option String) (s : String) :
    ((spawnPromise env.download).isOk = true ↔ env.download.code = some 0) ∧
    (env.download.code ≠ some 0 →
      (downloadVideo env d url resolution st et ch).result =
        .error ("Download failed: " ++ spawnErrMsg env.download)) ∧
    (env.download.code = some 0 →
      (downloadVideo { env with download := { env.download with stderr := s } }
          d url resolution st et ch).result =
        (downloadVideo env d url resolution st et ch).result) := by
  refine ⟨?_, ?_, ?_⟩
  · by_cases h : env.download.code = some 0 <;>
      simp [spawnPromise, h, Except.isOk, Except.toBool]
  · intro h
    have he : spawnPromise env.download = .error (spawnErrMsg env.download) := by
      unfold spawnPromise; rw [if_neg h]
    unfold downloadVideo downloadVideoBody
    rw [he]
  · intro h
    have h1 : spawnPromise { env with download := { env.download with stderr := s } }.download =
        .ok (env.download.stdout, s) := by
      unfold spawnPromise
      simp [h]
    have h2 : spawnPromise env.download = .ok (env.download.stdout, env.download.stderr) := by
      unfold spawnPromise; rw [if_pos h]
    unfold downloadVideo downloadVideoBody
    rw [h1, h2]
    rfl

/-- C8 witness: a concrete nonzero exit surfaces the wrapped error with
the captured stderr. -/
theorem claim_C8_witness :
    (downloadVideo envNonzeroExit "/downloads" "u" "best" none none none).result =
      .error ("Download failed: " ++ spawnErrMsg envNonzeroExit.download) :=
  (claim_C8_exit_code envNonzeroExit "/downloads" "u" "best" none none none "").2.1 (by decide)

/-- C9 counterexample: with the staged full video in a webm container,
the trimmed output the code writes is named with a hardcoded mp4
extension, not with the container extension of the staged file the
splitter located. -/
theorem claim_C9_counterexample :
    envYouTube.stagingAt 0 = ["vid.webm"] ∧
    isVideoFile "vid.webm" = true ∧
    chapterStep (pathJoin "/downloads" stagingDirName) "T" ["vid.webm"] ⟨"Intro", 0, 30⟩ =
      .ok ⟨"ffmpeg",
        ["-i", "/downloads/temp_yt_dlp_downloads/vid.webm", "-ss", "0", "-to", "30",
         "-c", "copy", "/downloads/temp_yt_dlp_downloads/T - Intro.mp4"], none⟩ ∧
    jsEndsWith "T - Intro.mp4" ".webm" = false :=
  ⟨rfl, by decide, rfl, by decide⟩

/-- C9 (amended): for every chapter selected by the filter, the trimmed
output written into the staging directory is named with the video title,
the chapter title and a fixed mp4 extension, regardless of the container
of the staged full video file the splitter located. -/
theorem claim_C9_amended (d filter videoTitle : String) (files : List String) (chap : Chapter)
    (_hsel : chapterMatches filter chap.title = true) :
    chapterStep (pathJoin d stagingDirName) videoTitle files chap =
      .ok ⟨"ffmpeg",
        ["-i", pathJoin (pathJoin d stagingDirName) ((files.find? isVideoFile).getD ""),
         "-ss", toString chap.start_time, "-to", toString chap.end_time,
         "-c", "copy",
         pathJoin (pathJoin d stagingDirName) (videoTitle ++ " - " ++ chap.title ++ ".mp4")],
        none⟩ :=
  chapterStep_spec _ _ _ _ (stagingDir_ne_empty d)

/-- C9 witness: a selected chapter of a webm-staged video produces the
mp4-named trim invocation. -/
theorem claim_C9_witness :
    chapterMatches "all" "Intro" = true ∧
    chapterStep (pathJoin "/downloads" stagingDirName) "T" ["vid.webm"] ⟨"Intro", 0, 30⟩ =
      .ok ⟨"ffmpeg",
        ["-i", pathJoin (pathJoin "/downloads" stagingDirName)
          (((["vid.webm"] : List String).find? isVideoFile).getD ""),
         "-ss", toString (0 : Int), "-to", toString (30 : Int),
         "-c", "copy",
         pathJoin (pathJoin "/downloads" stagingDirName) ("T" ++ " - " ++ "Intro" ++ ".mp4")],
        none⟩ :=
  ⟨by decide, claim_C9_amended "/downloads" "all" "T" ["vid.webm"] ⟨"Intro", 0, 30⟩ (by decide)⟩

/-- C10: when the filter selects a chapter but no staged file carries a
known container extension, the not-found guard never fires — the
candidate path is the staging directory itself, which is never the empty
string, and the trim tool is invoked with the staging directory as its
input file. -/
theorem claim_C10_guard_never_fires (d filter videoTitle : String) (files : List String)
    (chap : Chapter)
    (_hsel : chapterMatches filter chap.title = true)
    (hf : files.find? isVideoFile = none) :
    chapterStep (pathJoin d stagingDirName) videoTitle files chap =
      .ok ⟨"ffmpeg",
        ["-i", pathJoin d stagingDirName,
         "-ss", toString chap.start_time, "-to", toString chap.end_time,
         "-c", "copy",
         pathJoin (pathJoin d stagingDirName) (videoTitle ++ " - " ++ chap.title ++ ".mp4")],
        none⟩ := by
  rw [chapterStep_spec _ _ _ _ (stagingDir_ne_empty d), hf]
  rfl

/-- C10 witness: an empty staging listing with a matching filter yields
the trim invocation whose input is the staging directory. -/
theorem claim_C10_witness :
    chapterMatches "all" "X" = true ∧
    ([] : List String).find? isVideoFile = none ∧
    chapterStep (pathJoin "/home/user/Downloads" stagingDirName) "T" [] ⟨"X", 1, 2⟩ =
      .ok ⟨"ffmpeg",
        ["-i", pathJoin "/home/user/Downloads" stagingDirName,
         "-ss", toString (1 : Int), "-to", toString (2 : Int),
         "-c", "copy",
         pathJoin (pathJoin "/home/user/Downloads" stagingDirName) ("T" ++ " - " ++ "X" ++ ".mp4")],
        none⟩ :=
  ⟨by decide, rfl,
   claim_C10_guard_never_fires "/home/user/Downloads" "all" "T" [] ⟨"X", 1, 2⟩ (by decide) rfl⟩

end YtDlpMcp
